import Mathlib

/-!
Verification of the streaming session coordinator of `phonegenius_ultra.py`.

The embedding models the `media_stream` WebSocket handler as a small-step
state machine.  The handler's loop alternates between `ws.receive()` and
processing one frame; a `media` frame runs `asyncio.run(handle_stream())`,
which synchronously drains the whole token generation before the loop can
read again.  We model this with a `Mode`: `reading` (the handler is at
`ws.receive()`), `generating ts` (the handler is inside `asyncio.run`,
with `ts` the tokens not yet sent), and `closed` (the handler function has
returned, either because `ws.receive()` returned `None` or because an
uncaught exception escaped the loop).  Frames arriving while the handler
is busy sit in the channel's receive buffer.

Inbound frames are modelled by the result of `json.loads` on the received
text: `none` when parsing raises `json.JSONDecodeError`, `some j` with `j`
the parsed JSON value otherwise.  The Gemini collaborator is modelled by
an oracle list of `GenOutcome`s, one consumed per `generate_content` call:
the outcome records the chunk texts produced and whether the stream raised.

One load-time fact dominates everything.  The body of
`async def stream_gemini_response` contains `yield` (lines 177 and 182)
and also the valued `return full_response` (line 179); CPython rejects a
`return` with a value inside an asynchronous generator at compile time
(`SyntaxError: 'return' with value in async generator`), and a module is
compiled as a whole before any of its statements execute.  So
`phonegenius_ultra.py` never loads: no Flask route is registered,
`media_stream` is never defined, and the shipped program has no runtime
behaviour at all.  This development therefore has two layers.  Layer (1)
embeds the compile check itself (`PyStmt`, `pyFunCompiles`,
`phonegeniusModuleLoads`) and proves the module cannot load.  Layer (2) is
the state machine: the semantics of the handlers' code as written — what
the module would do after the one-token fix Python's error message demands
(a bare `return`), which is evidently the reading the spec was written
against.  Every claim's verdict references layer (1); statements proved
about `run`/`step` are statements about layer (2), never about an
execution of the shipped program.
-/

namespace PGU

/-! ## Base64, as performed by `base64.b64encode(text.encode()).decode()` -/

/-- The standard base64 alphabet used by `base64.b64encode`. -/
def b64Alphabet : List Char :=
  "ABCDEFGHIJKLMNOPQRSTUVWXYZabcdefghijklmnopqrstuvwxyz0123456789+/".toList

/-- The base64 character of a 6-bit value. -/
def encChar (n : Nat) : Char := b64Alphabet.getD n 'A'

/-- The 6-bit value of a base64 character, `none` for a non-alphabet character. -/
def decChar (c : Char) : Option Nat := b64Alphabet.findIdx? (fun d => d = c)

/-- `base64.b64encode` on a byte sequence: 3 bytes become 4 characters, a
final group of 1 or 2 bytes is padded with `=`. -/
def b64encode : List Nat → List Char
  | [] => []
  | [b1] => [encChar (b1 / 4), encChar (b1 % 4 * 16), '=', '=']
  | [b1, b2] => [encChar (b1 / 4), encChar (b1 % 4 * 16 + b2 / 16), encChar (b2 % 16 * 4), '=']
  | b1 :: b2 :: b3 :: rest =>
      encChar (b1 / 4) :: encChar (b1 % 4 * 16 + b2 / 16) ::
      encChar (b2 % 16 * 4 + b3 / 64) :: encChar (b3 % 64) :: b64encode rest

/-- Strict base64 decoding: the inverse of `b64encode`, `none` on input that
is not a properly padded base64 text. -/
def b64decode : List Char → Option (List Nat)
  | [] => some []
  | c1 :: c2 :: c3 :: c4 :: rest =>
      match decChar c1, decChar c2 with
      | some d1, some d2 =>
          if c3 = '=' then
            if c4 = '=' ∧ rest = [] then some [d1 * 4 + d2 / 16] else none
          else
            match decChar c3 with
            | some d3 =>
                if c4 = '=' then
                  if rest = [] then some [d1 * 4 + d2 / 16, d2 % 16 * 16 + d3 / 4] else none
                else
                  match decChar c4 with
                  | some d4 =>
                      (b64decode rest).map
                        (fun t => (d1 * 4 + d2 / 16) :: (d2 % 16 * 16 + d3 / 4) ::
                                  (d3 % 4 * 64 + d4) :: t)
                  | none => none
            | none => none
      | _, _ => none
  | _ => none

/-- Whether `base64.b64decode` accepts a payload string without raising
`binascii.Error` (non-strict mode: characters outside the alphabet are
discarded before the padding check, and padding ends the input). -/
def isB64Char (c : Char) : Bool := (decChar c).isSome

/-- Validity of the filtered character stream in groups of four, with `=`
padding allowed to close the final group (anything after it is ignored,
as `binascii.a2b_base64` stops at the padding). -/
def b64QuadsOk : List Char → Bool
  | [] => true
  | c1 :: c2 :: '=' :: '=' :: _ => isB64Char c1 && isB64Char c2
  | c1 :: c2 :: c3 :: '=' :: _ => isB64Char c1 && isB64Char c2 && isB64Char c3
  | c1 :: c2 :: c3 :: c4 :: rest =>
      isB64Char c1 && isB64Char c2 && isB64Char c3 && isB64Char c4 && b64QuadsOk rest
  | _ => false

/-- `base64.b64decode(p)` succeeds (used only for whether the `media` branch
raises; the decoded audio bytes themselves are never used by the handler). -/
def pyB64Valid (p : String) : Bool :=
  b64QuadsOk (p.toList.filter (fun c => isB64Char c || c = '='))

/-- The UTF-8 bytes of a text, as produced by `str.encode()`. -/
def utf8Bytes (s : String) : List Nat :=
  s.toUTF8.data.toList.map (fun b => b.toNat)

/-! ## JSON values and the inbound/outbound frame protocol -/

/-- A JSON value, the result of `json.loads` on a frame. -/
inductive J where
  | jnull
  | jbool (b : Bool)
  | jnum (n : Int)
  | jstr (s : String)
  | jarr (elems : List J)
  | jobj (fields : List (String × J))

/-- Python `dict.get` on a JSON object: the value of the last binding of the
key (later duplicate keys win when `json.loads` builds the dict). -/
def jGet (fields : List (String × J)) (k : String) : Option J :=
  ((fields.filter (fun p => p.1 == k)).getLast?).map (fun p => p.2)

/-- A value usable as a Python `dict` key for `ACTIVE_CALLS[call_sid]`:
`None`, a bool, a number or a string.  Lists and dicts are unhashable and
make the subscript raise `TypeError`. -/
inductive PyKey where
  | pynull
  | pybool (b : Bool)
  | pynum (n : Int)
  | pystr (s : String)
deriving DecidableEq, Repr

/-! ## Configuration data of the coordinator -/

/-- The `ELITE_OPENINGS` table of `phonegenius_ultra.py`. -/
def ELITE_OPENINGS : List (String × String) :=
  [("restaurant", "Hi {name}, quick question - do you have 30 seconds? I noticed restaurants in your area making an extra $5K-15K monthly just by answering calls during rush hours. Are you leaving money on the table right now?"),
   ("dental", "Hi {name}, are you open to a quick idea? Dental practices are recovering $22K monthly by answering emergency calls after 5 PM that currently go to voicemail. How many of those calls do you think you're missing?"),
   ("legal", "Hi {name}, quick thought - 67% of clients hire the first attorney who answers. You're probably missing intake calls after 5 PM. Would looking at that be worth 15 minutes?"),
   ("realestate", "Hi {name}, when you're showing properties, you're probably missing buyer calls. Most agents miss 40% of theirs. Want to see what those missed calls are costing you?"),
   ("consulting", "Hi {name}, your ideal clients call after 5 PM when you're not available. 47% of consulting inquiries happen after hours. Are you interested in capturing those calls going to competitors?")]

/-- `ELITE_OPENINGS.get('restaurant', "Hello")`: the opening line the `start`
branch sends. -/
def OPENING : String := (ELITE_OPENINGS.lookup "restaurant").getD "Hello"

/-- The fallback utterance yielded by `stream_gemini_response` on an error. -/
def FALLBACK : String := "I understand. Tell me more about your situation."

/-- The fixed prompt the `media` branch passes to `stream_gemini_response`
(the decoded inbound audio is not used to build it). -/
def GEMINI_PROMPT : String := "Prospect said something. Respond naturally in 1-2 sentences."

/-! ## The compile-time fate of the module

`stream_gemini_response` (src lines 162–182) is declared `async def`, and
its body contains `yield` (lines 177 and 182) together with the valued
`return full_response` (line 179).  CPython classifies a function whose
body contains `yield` as a generator; inside an asynchronous generator a
`return` carrying a value is rejected when the module is compiled
(`SyntaxError: 'return' with value in async generator` — the rule holds in
every Python version and was re-verified on this container's 3.11).
Python compiles a module in full before executing anything, so
`phonegenius_ultra.py` raises SyntaxError on load: the Flask app is never
built, no route is registered, and `media_stream` is never defined. -/

/-- The shape of a Python statement, as far as the compile rule above is
concerned: whether it is a `yield`, a `return` with a value, or a compound
statement whose nested blocks must also be searched (the rule is insensitive
to nesting inside one function body). -/
inductive PyStmt where
  | assign
  | exprStmt
  | yieldStmt
  | returnValued
  | seq (a b : PyStmt)
  | forLoop (body : PyStmt)
  | ifStmt (body : PyStmt)
  | tryExcept (body handler : PyStmt)

/-- Whether a `yield` occurs in the statement, nested blocks included. -/
def pyHasYield : PyStmt → Bool
  | .yieldStmt => true
  | .seq a b => pyHasYield a || pyHasYield b
  | .forLoop b => pyHasYield b
  | .ifStmt b => pyHasYield b
  | .tryExcept b h => pyHasYield b || pyHasYield h
  | _ => false

/-- Whether a `return` with a value occurs in the statement. -/
def pyHasValuedReturn : PyStmt → Bool
  | .returnValued => true
  | .seq a b => pyHasValuedReturn a || pyHasValuedReturn b
  | .forLoop b => pyHasValuedReturn b
  | .ifStmt b => pyHasValuedReturn b
  | .tryExcept b h => pyHasValuedReturn b || pyHasValuedReturn h
  | _ => false

/-- CPython's compile check relevant here: an `async def` whose body
contains `yield` is an asynchronous generator, and a valued `return`
anywhere in its body is a SyntaxError. -/
def pyFunCompiles (isAsync : Bool) (body : PyStmt) : Bool :=
  !(isAsync && pyHasYield body && pyHasValuedReturn body)

/-- The body of `async def stream_gemini_response`, statement for statement
(src lines 164–182): `try:` holding `response = gemini_model.generate_content(…)`
(line 166), `full_response = ""` (172), `for chunk in response:` over
`if chunk.text:` over `full_response += chunk.text` (175) and
`yield chunk.text` (177), then `return full_response` (179); the
`except Exception as e:` handler holding `print(f"Gemini error: {e}")`
(181) and `yield "I understand. …"` (182). -/
def stream_gemini_response_src : PyStmt :=
  .tryExcept
    (.seq .assign (.seq .assign (.seq
      (.forLoop (.ifStmt (.seq .assign .yieldStmt)))
      .returnValued)))
    (.seq .exprStmt .yieldStmt)

/-- Whether `phonegenius_ultra.py` loads: the module is compiled as a whole
before anything runs, and compilation fails on `stream_gemini_response`. -/
def phonegeniusModuleLoads : Bool :=
  pyFunCompiles true stream_gemini_response_src

/-- The module dies at load time: the shipped program registers no route,
serves no channel, and handles no event. -/
theorem phonegenius_never_runs : phonegeniusModuleLoads = false := rfl

/-! ## The Gemini collaborator -/

/-- One call of the Gemini streaming API: the texts of the chunks it
produces (an empty string standing for a chunk whose `text` is falsy), and
whether the call or the iteration raised after those chunks. -/
inductive GenOutcome where
  | ok (chunks : List String)
  | err (chunks : List String)
deriving DecidableEq, Repr

/-- The token texts `stream_gemini_response` would yield for one outcome,
reading its body as written: chunks with falsy `text` are skipped by
`if chunk.text:`; on an exception the `except` branch yields the fallback
utterance once.  Mind `phonegenius_never_runs`: this very function's valued
`return` (line 179) makes the whole module unloadable, so the generator is
never actually created — this definition is the layer-(2) semantics of the
code's evident flow (equivalently, of the module after the one-token fix of
making that return bare). -/
def stream_gemini_response : GenOutcome → List String
  | .ok chunks => chunks.filter (fun c => c ≠ "")
  | .err chunks => chunks.filter (fun c => c ≠ "") ++ [FALLBACK]

/-! ## Session state and the coordinator state machine -/

/-- One entry of `ACTIVE_CALLS`: `{'started': datetime.now(), 'transcript': []}`.
The clock tick at creation stands in for `datetime.now()`.  The handler
never writes to `transcript`, so its element type never materializes; we
type the entries as the texts they would hold. -/
structure Session where
  started : Nat
  transcript : List String
deriving DecidableEq, Repr

/-- Where the handler's control is: at `ws.receive()`, inside
`asyncio.run(handle_stream())` with the listed tokens still to send, or
returned (loop ended by a `None` receive or by an uncaught exception). -/
inductive Mode where
  | reading
  | generating (pending : List String)
  | closed
deriving DecidableEq, Repr

/-- The state of one `media_stream` handler together with the process-wide
`ACTIVE_CALLS` registry, the channel's receive buffer and the frames sent
so far.  `oracle` feeds one `GenOutcome` to each `generate_content` call;
`gensStarted` counts those calls; `clock` advances with each handler step. -/
structure CoordState where
  ACTIVE_CALLS : List (PyKey × Session)
  outbound : List J
  buffer : List (Option J)
  peerClosed : Bool
  mode : Mode
  oracle : List GenOutcome
  clock : Nat
  gensStarted : Nat

/-- Python dict assignment `d[k] = v`: replace the binding in place or
append a new one. -/
def insertReplace (k : PyKey) (v : Session) :
    List (PyKey × Session) → List (PyKey × Session)
  | [] => [(k, v)]
  | (k', v') :: rest =>
      if k' = k then (k, v) :: rest else (k', v') :: insertReplace k v rest

/-- The outbound frame for a text: `{'event': 'media', 'media': {'payload':
base64.b64encode(text.encode()).decode()}}`. -/
def mkFrame (t : String) : J :=
  .jobj [("event", .jstr "media"),
         ("media", .jobj [("payload", .jstr (String.mk (b64encode (utf8Bytes t))))])]

/-- The dict key for `ACTIVE_CALLS[call_sid]` from the value of
`message.get('start', {}).get('callSid')` (`none` argument: the key was
absent, so the Python value is `None`).  Result `none`: the subscript
raises `TypeError` (unhashable list/dict). -/
def startKey : Option J → Option PyKey
  | none => some .pynull
  | some .jnull => some .pynull
  | some (.jbool b) => some (.pybool b)
  | some (.jnum n) => some (.pynum n)
  | some (.jstr s) => some (.pystr s)
  | some (.jarr _) => none
  | some (.jobj _) => none

/-- The `start` branch after the call key is known: register the session
(overwriting any previous one), then `ws.send` the opening frame.  A send
on a closed channel raises, ending the handler with the registry already
updated. -/
def handleStartKey (s : CoordState) (key : Option PyKey) (rest : List (Option J)) :
    CoordState :=
  match key with
  | none => { s with mode := .closed, buffer := rest, clock := s.clock + 1 }
  | some k =>
      let reg := insertReplace k { started := s.clock, transcript := [] } s.ACTIVE_CALLS
      if s.peerClosed then
        { s with ACTIVE_CALLS := reg, mode := .closed, buffer := rest, clock := s.clock + 1 }
      else
        { s with ACTIVE_CALLS := reg, outbound := s.outbound ++ [mkFrame OPENING],
                 buffer := rest, clock := s.clock + 1 }

/-- The `start` branch: `message.get('start', {}).get('callSid')`.  When the
`start` key holds a non-dict, the second `.get` raises `AttributeError`,
which the inner `except json.JSONDecodeError` does not catch. -/
def handleStart (s : CoordState) (fields : List (String × J)) (rest : List (Option J)) :
    CoordState :=
  match jGet fields "start" with
  | none => handleStartKey s (startKey none) rest
  | some (.jobj sf) => handleStartKey s (startKey (jGet sf "callSid")) rest
  | some _ => { s with mode := .closed, buffer := rest, clock := s.clock + 1 }

/-- The `media` branch: `base64.b64decode(message['media']['payload'])`, then
`asyncio.run(handle_stream())`, which consumes the next Gemini outcome.
A missing `media` key raises `KeyError`, a non-dict `media` value or a
non-string payload raises `TypeError`, an invalid base64 payload raises
`binascii.Error` — none of them `json.JSONDecodeError`, so each ends the
handler. -/
def handleMedia (s : CoordState) (fields : List (String × J)) (rest : List (Option J)) :
    CoordState :=
  match jGet fields "media" with
  | some (.jobj mf) =>
      match jGet mf "payload" with
      | some (.jstr p) =>
          if pyB64Valid p then
            { s with mode := .generating (stream_gemini_response (s.oracle.headD (.ok []))),
                     oracle := s.oracle.tail, gensStarted := s.gensStarted + 1,
                     buffer := rest, clock := s.clock + 1 }
          else
            { s with mode := .closed, buffer := rest, clock := s.clock + 1 }
      | some _ => { s with mode := .closed, buffer := rest, clock := s.clock + 1 }
      | none => { s with mode := .closed, buffer := rest, clock := s.clock + 1 }
  | some _ => { s with mode := .closed, buffer := rest, clock := s.clock + 1 }
  | none => { s with mode := .closed, buffer := rest, clock := s.clock + 1 }

/-- Processing of one received frame.  `none` (text that is not valid JSON):
`except json.JSONDecodeError: continue`.  A JSON value that is not an
object: `message.get('event')` raises `AttributeError`, ending the handler.
An object with an `event` other than `start`/`media` (or none): no branch
taken, the loop continues. -/
def processFrame (s : CoordState) (d : Option J) (rest : List (Option J)) : CoordState :=
  match d with
  | none => { s with buffer := rest, clock := s.clock + 1 }
  | some (.jobj fields) =>
      match jGet fields "event" with
      | some (.jstr e) =>
          if e = "start" then handleStart s fields rest
          else if e = "media" then handleMedia s fields rest
          else { s with buffer := rest, clock := s.clock + 1 }
      | _ => { s with buffer := rest, clock := s.clock + 1 }
  | some _ => { s with mode := .closed, buffer := rest, clock := s.clock + 1 }

/-- One step of the handler itself.  At `ws.receive()`: take the next
buffered frame; with an empty buffer a closed peer makes `receive` return
`None` (`break`, then the `finally` block, which only prints), otherwise
the handler blocks.  Inside `asyncio.run`: send the next token frame —
on a closed channel the send raises and the handler dies with the rest of
the generation discarded; after the last token the loop returns to
`ws.receive()`.  Mind `phonegenius_never_runs`: the module fails to
compile, so the `@sock.route` declaring this handler never executes and
the handler is never registered — this machine is the layer-(2) semantics
of the handler's code as written, not a behaviour the shipped program
exhibits. -/
def media_stream_step (s : CoordState) : CoordState :=
  match s.mode with
  | .closed => s
  | .generating [] => { s with mode := .reading, clock := s.clock + 1 }
  | .generating (t :: ts) =>
      if s.peerClosed then { s with mode := .closed, clock := s.clock + 1 }
      else { s with outbound := s.outbound ++ [mkFrame t], mode := .generating ts,
                    clock := s.clock + 1 }
  | .reading =>
      match s.buffer with
      | [] =>
          if s.peerClosed then { s with mode := .closed, clock := s.clock + 1 }
          else { s with clock := s.clock + 1 }
      | d :: rest => processFrame s d rest

/-- External and internal events of one channel: a frame arrives (queued by
the transport; carried as its `json.loads` result), the peer closes the
connection, or the handler performs one step. -/
inductive Act where
  | arrive (d : Option J)
  | close
  | tick

/-- One transition of the whole system. -/
def step (s : CoordState) (a : Act) : CoordState :=
  match a with
  | .arrive d => if s.peerClosed then s else { s with buffer := s.buffer ++ [d] }
  | .close => { s with peerClosed := true }
  | .tick => media_stream_step s

/-- Run a sequence of events. -/
def run (s : CoordState) (acts : List Act) : CoordState := acts.foldl step s

/-- A fresh channel on a fresh process: empty registry, nothing sent,
nothing buffered, handler at its first `ws.receive()`. -/
def initState (oracle : List GenOutcome) : CoordState :=
  { ACTIVE_CALLS := [], outbound := [], buffer := [], peerClosed := false,
    mode := .reading, oracle := oracle, clock := 0, gensStarted := 0 }

/-- How many token generations are running for this channel's session:
the handler is single-threaded, so the mode carries zero or one. -/
def inFlightGenerations : Mode → Nat
  | .generating _ => 1
  | _ => 0

/-- The well-formed start frame `{"event":"start","start":{"callSid":sid}}`. -/
def startFrame (sid : String) : J :=
  .jobj [("event", .jstr "start"), ("start", .jobj [("callSid", .jstr sid)])]

/-- The well-formed media frame `{"event":"media","media":{"payload":p}}`. -/
def mediaFrame (p : String) : J :=
  .jobj [("event", .jstr "media"), ("media", .jobj [("payload", .jstr p)])]

/-! ## Base64 facts -/

theorem decChar_encChar (n : Nat) (h : n < 64) : decChar (encChar n) = some n := by
  interval_cases n <;> rfl

theorem encChar_ne_pad (n : Nat) (h : n < 64) : encChar n ≠ '=' := by
  interval_cases n <;> decide

/-- Strict decoding is a left inverse of encoding on byte sequences. -/
theorem b64_roundtrip : ∀ bs : List Nat, (∀ b ∈ bs, b < 256) →
    b64decode (b64encode bs) = some bs := by
  intro bs
  induction bs using b64encode.induct with
  | case1 => intro _; rfl
  | case2 b1 =>
      intro h
      have hb1 : b1 < 256 := h b1 (by simp)
      simp only [b64encode, b64decode, decChar_encChar (b1 / 4) (by omega),
        decChar_encChar (b1 % 4 * 16) (by omega)]
      simp
      omega
  | case3 b1 b2 =>
      intro h
      have hb1 : b1 < 256 := h b1 (by simp)
      have hb2 : b2 < 256 := h b2 (by simp)
      simp only [b64encode, b64decode, decChar_encChar (b1 / 4) (by omega),
        decChar_encChar (b1 % 4 * 16 + b2 / 16) (by omega),
        decChar_encChar (b2 % 16 * 4) (by omega)]
      rw [if_neg (encChar_ne_pad (b2 % 16 * 4) (by omega))]
      simp
      constructor <;> omega
  | case4 b1 b2 b3 rest ih =>
      intro h
      have hb1 : b1 < 256 := h b1 (by simp)
      have hb2 : b2 < 256 := h b2 (by simp)
      have hb3 : b3 < 256 := h b3 (by simp)
      have hrest := ih (fun b hb => h b (by simp [hb]))
      simp only [b64encode, b64decode, decChar_encChar (b1 / 4) (by omega),
        decChar_encChar (b1 % 4 * 16 + b2 / 16) (by omega),
        decChar_encChar (b2 % 16 * 4 + b3 / 64) (by omega),
        decChar_encChar (b3 % 64) (by omega)]
      rw [if_neg (encChar_ne_pad (b2 % 16 * 4 + b3 / 64) (by omega))]
      rw [if_neg (encChar_ne_pad (b3 % 64) (by omega))]
      rw [hrest]
      simp
      refine ⟨by omega, by omega, by omega⟩

/-- UTF-8 bytes are bytes. -/
theorem utf8Bytes_lt (s : String) : ∀ b ∈ utf8Bytes s, b < 256 := by
  intro b hb
  simp [utf8Bytes] at hb
  obtain ⟨u, _, rfl⟩ := hb
  exact u.toNat_lt

/-! ## Behaviour of single steps -/

/-- `run` unfolded one event at a time. -/
theorem run_cons (s : CoordState) (a : Act) (acts : List Act) :
    run s (a :: acts) = run (step s a) acts := rfl

/-- `handleMedia` never touches the registry, the outbound stream or the
peer flag: it either enters generating mode or ends the handler. -/
theorem handleMedia_frame (s : CoordState) (fields : List (String × J))
    (rest : List (Option J)) :
    (handleMedia s fields rest).ACTIVE_CALLS = s.ACTIVE_CALLS ∧
    (handleMedia s fields rest).outbound = s.outbound ∧
    (handleMedia s fields rest).peerClosed = s.peerClosed := by
  unfold handleMedia
  split
  · split
    · split <;> exact ⟨rfl, rfl, rfl⟩
    · exact ⟨rfl, rfl, rfl⟩
    · exact ⟨rfl, rfl, rfl⟩
  · exact ⟨rfl, rfl, rfl⟩
  · exact ⟨rfl, rfl, rfl⟩

/-- `handleStartKey` with the peer gone: the `ws.send` raises, so the
outbound stream is untouched and the peer flag stays set. -/
theorem handleStartKey_after_close (s : CoordState) (key : Option PyKey)
    (rest : List (Option J)) (h : s.peerClosed = true) :
    (handleStartKey s key rest).outbound = s.outbound ∧
    (handleStartKey s key rest).peerClosed = true := by
  unfold handleStartKey
  split
  · exact ⟨rfl, h⟩
  · split
    · exact ⟨rfl, h⟩
    · rename_i hc
      exact absurd h hc

/-- `handleStart` with the peer gone: no outbound write, flag stays set. -/
theorem handleStart_after_close (s : CoordState) (fields : List (String × J))
    (rest : List (Option J)) (h : s.peerClosed = true) :
    (handleStart s fields rest).outbound = s.outbound ∧
    (handleStart s fields rest).peerClosed = true := by
  unfold handleStart
  split
  · exact handleStartKey_after_close s _ rest h
  · exact handleStartKey_after_close s _ rest h
  · exact ⟨rfl, h⟩

/-- `processFrame` with the peer gone: no outbound write, flag stays set. -/
theorem processFrame_after_close (s : CoordState) (d : Option J)
    (rest : List (Option J)) (h : s.peerClosed = true) :
    (processFrame s d rest).outbound = s.outbound ∧
    (processFrame s d rest).peerClosed = true := by
  unfold processFrame
  split
  · exact ⟨rfl, h⟩
  · split
    · split
      · exact handleStart_after_close s _ rest h
      · split
        · refine ⟨(handleMedia_frame s _ rest).2.1, ?_⟩
          rw [(handleMedia_frame s _ rest).2.2]
          exact h
        · exact ⟨rfl, h⟩
    · exact ⟨rfl, h⟩
  · exact ⟨rfl, h⟩

/-- Once the peer has closed the channel, every later state still has it
closed and not one more outbound frame is written: each send attempt
raises before appending. -/
theorem step_after_close (s : CoordState) (a : Act) (h : s.peerClosed = true) :
    (step s a).peerClosed = true ∧ (step s a).outbound = s.outbound := by
  cases a with
  | arrive d =>
      simp only [step]
      rw [if_pos h]
      exact ⟨h, rfl⟩
  | close => exact ⟨rfl, rfl⟩
  | tick =>
      simp only [step]
      unfold media_stream_step
      split
      · exact ⟨h, rfl⟩
      · exact ⟨h, rfl⟩
      · split
        · exact ⟨h, rfl⟩
        · rename_i hc
          exact absurd h hc
      · split
        · split <;> exact ⟨h, rfl⟩
        · exact ⟨(processFrame_after_close s _ _ h).2, (processFrame_after_close s _ _ h).1⟩

/-- Membership in a Python dict after an assignment. -/
theorem mem_insertReplace (k : PyKey) (v : Session) (l : List (PyKey × Session))
    (p : PyKey × Session) (hp : p ∈ insertReplace k v l) : p = (k, v) ∨ p ∈ l := by
  induction l with
  | nil => simpa [insertReplace] using hp
  | cons q rest ih =>
      unfold insertReplace at hp
      split at hp
      · rcases List.mem_cons.mp hp with h1 | h2
        · exact Or.inl h1
        · exact Or.inr (List.mem_cons_of_mem _ h2)
      · rcases List.mem_cons.mp hp with h1 | h2
        · exact Or.inr (h1 ▸ List.mem_cons_self _ _)
        · rcases ih h2 with h3 | h4
          · exact Or.inl h3
          · exact Or.inr (List.mem_cons_of_mem _ h4)

/-- Every session `handleStartKey` writes has an empty transcript. -/
theorem handleStartKey_registry_mem (s : CoordState) (key : Option PyKey)
    (rest : List (Option J)) (k : PyKey) (sess : Session)
    (hmem : (k, sess) ∈ (handleStartKey s key rest).ACTIVE_CALLS) :
    (k, sess) ∈ s.ACTIVE_CALLS ∨ sess.transcript = [] := by
  unfold handleStartKey at hmem
  split at hmem
  · exact Or.inl hmem
  · split at hmem <;>
      · rcases mem_insertReplace _ _ _ _ hmem with h1 | h2
        · right
          injection h1 with ha hb
          rw [hb]
        · exact Or.inl h2

/-- Every session `handleStart` writes has an empty transcript. -/
theorem handleStart_registry_mem (s : CoordState) (fields : List (String × J))
    (rest : List (Option J)) (k : PyKey) (sess : Session)
    (hmem : (k, sess) ∈ (handleStart s fields rest).ACTIVE_CALLS) :
    (k, sess) ∈ s.ACTIVE_CALLS ∨ sess.transcript = [] := by
  unfold handleStart at hmem
  split at hmem
  · exact handleStartKey_registry_mem s _ rest k sess hmem
  · exact handleStartKey_registry_mem s _ rest k sess hmem
  · exact Or.inl hmem

/-- Every session `processFrame` writes has an empty transcript. -/
theorem processFrame_registry_mem (s : CoordState) (d : Option J)
    (rest : List (Option J)) (k : PyKey) (sess : Session)
    (hmem : (k, sess) ∈ (processFrame s d rest).ACTIVE_CALLS) :
    (k, sess) ∈ s.ACTIVE_CALLS ∨ sess.transcript = [] := by
  unfold processFrame at hmem
  split at hmem
  · exact Or.inl hmem
  · split at hmem
    · split at hmem
      · exact handleStart_registry_mem s _ rest k sess hmem
      · split at hmem
        · rw [(handleMedia_frame s _ rest).1] at hmem
          exact Or.inl hmem
        · exact Or.inl hmem
    · exact Or.inl hmem
  · exact Or.inl hmem

/-- Every session a step writes into `ACTIVE_CALLS` has an empty
transcript (the handler initializes it to `[]` and never appends). -/
theorem step_registry_mem (s : CoordState) (a : Act) (k : PyKey) (sess : Session)
    (hmem : (k, sess) ∈ (step s a).ACTIVE_CALLS) :
    (k, sess) ∈ s.ACTIVE_CALLS ∨ sess.transcript = [] := by
  cases a with
  | arrive d =>
      left
      simp only [step] at hmem
      split at hmem
      · exact hmem
      · exact hmem
  | close => exact Or.inl hmem
  | tick =>
      simp only [step] at hmem
      unfold media_stream_step at hmem
      split at hmem
      · exact Or.inl hmem
      · exact Or.inl hmem
      · split at hmem <;> exact Or.inl hmem
      · split at hmem
        · split at hmem <;> exact Or.inl hmem
        · exact processFrame_registry_mem s _ _ k sess hmem

/-- Every frame `handleStartKey` appends is the opening frame. -/
theorem handleStartKey_outbound_mem (s : CoordState) (key : Option PyKey)
    (rest : List (Option J)) (f : J)
    (hf : f ∈ (handleStartKey s key rest).outbound) :
    f ∈ s.outbound ∨ ∃ t, f = mkFrame t := by
  unfold handleStartKey at hf
  split at hf
  · exact Or.inl hf
  · split at hf
    · exact Or.inl hf
    · rcases List.mem_append.mp hf with h1 | h2
      · exact Or.inl h1
      · exact Or.inr ⟨OPENING, List.mem_singleton.mp h2⟩

/-- Every frame `handleStart` appends is `mkFrame` of some text. -/
theorem handleStart_outbound_mem (s : CoordState) (fields : List (String × J))
    (rest : List (Option J)) (f : J)
    (hf : f ∈ (handleStart s fields rest).outbound) :
    f ∈ s.outbound ∨ ∃ t, f = mkFrame t := by
  unfold handleStart at hf
  split at hf
  · exact handleStartKey_outbound_mem s _ rest f hf
  · exact handleStartKey_outbound_mem s _ rest f hf
  · exact Or.inl hf

/-- Every frame `processFrame` appends is `mkFrame` of some text. -/
theorem processFrame_outbound_mem (s : CoordState) (d : Option J)
    (rest : List (Option J)) (f : J)
    (hf : f ∈ (processFrame s d rest).outbound) :
    f ∈ s.outbound ∨ ∃ t, f = mkFrame t := by
  unfold processFrame at hf
  split at hf
  · exact Or.inl hf
  · split at hf
    · split at hf
      · exact handleStart_outbound_mem s _ rest f hf
      · split at hf
        · rw [(handleMedia_frame s _ rest).2.1] at hf
          exact Or.inl hf
        · exact Or.inl hf
    · exact Or.inl hf
  · exact Or.inl hf

/-- At `ws.receive()` with a frame queued, the handler step is exactly the
processing of that frame. -/
theorem media_stream_step_reading (s : CoordState) (d : Option J) (rest : List (Option J))
    (hm : s.mode = .reading) (hb : s.buffer = d :: rest) :
    step s .tick = processFrame s d rest := by
  obtain ⟨reg, outb, buf, pc, mode, orc, clk, gs⟩ := s
  simp only at hm hb
  subst hm hb
  rfl

/-- Processing a well-formed media frame: `base64.b64decode` succeeds, and
`asyncio.run(handle_stream())` begins with the tokens of the next Gemini
outcome. -/
theorem processFrame_mediaFrame (s : CoordState) (p : String) (rest : List (Option J))
    (hp : pyB64Valid p = true) :
    processFrame s (some (mediaFrame p)) rest =
    { s with mode := .generating (stream_gemini_response (s.oracle.headD (.ok []))),
             oracle := s.oracle.tail, gensStarted := s.gensStarted + 1,
             buffer := rest, clock := s.clock + 1 } := by
  show (if pyB64Valid p = true then _ else _) = _
  rw [if_pos hp]

/-- Processing a well-formed start frame on an open channel: the session is
written (created or overwritten) under the string key and the opening frame
is sent. -/
theorem processFrame_startFrame (s : CoordState) (sid : String) (rest : List (Option J))
    (hpc : s.peerClosed = false) :
    processFrame s (some (startFrame sid)) rest =
    { s with ACTIVE_CALLS := insertReplace (.pystr sid)
               { started := s.clock, transcript := [] } s.ACTIVE_CALLS,
             outbound := s.outbound ++ [mkFrame OPENING],
             buffer := rest, clock := s.clock + 1 } := by
  show (if s.peerClosed = true then _ else _) = _
  rw [if_neg (by rw [hpc]; exact Bool.false_ne_true)]

/-- Every frame a step appends to the outbound stream is `mkFrame` of some
text (the opening line or a generation token). -/
theorem step_outbound_mem (s : CoordState) (a : Act) (f : J)
    (hf : f ∈ (step s a).outbound) : f ∈ s.outbound ∨ ∃ t, f = mkFrame t := by
  cases a with
  | arrive d =>
      left
      simp only [step] at hf
      split at hf
      · exact hf
      · exact hf
  | close => exact Or.inl hf
  | tick =>
      simp only [step] at hf
      unfold media_stream_step at hf
      split at hf
      · exact Or.inl hf
      · exact Or.inl hf
      · split at hf
        · exact Or.inl hf
        · rcases List.mem_append.mp hf with h1 | h2
          · exact Or.inl h1
          · exact Or.inr ⟨_, List.mem_singleton.mp h2⟩
      · split at hf
        · split at hf <;> exact Or.inl hf
        · exact processFrame_outbound_mem s _ _ f hf

/-! ## Behaviour of whole runs -/

/-- After the peer closes, a whole run writes nothing more and the flag
stays set. -/
theorem run_after_close (acts : List Act) : ∀ s : CoordState, s.peerClosed = true →
    (run s acts).outbound = s.outbound ∧ (run s acts).peerClosed = true := by
  induction acts with
  | nil => exact fun s h => ⟨rfl, h⟩
  | cons a acts ih =>
      intro s h
      rw [run_cons]
      obtain ⟨h1, h2⟩ := step_after_close s a h
      obtain ⟨h3, h4⟩ := ih (step s a) h1
      exact ⟨h3.trans h2, h4⟩

/-- Transcripts are empty in every state reachable from a state with empty
transcripts. -/
theorem run_registry_transcript (acts : List Act) : ∀ s : CoordState,
    (∀ k sess, (k, sess) ∈ s.ACTIVE_CALLS → sess.transcript = []) →
    ∀ k sess, (k, sess) ∈ (run s acts).ACTIVE_CALLS → sess.transcript = [] := by
  induction acts with
  | nil => exact fun s h => h
  | cons a acts ih =>
      intro s h k sess hmem
      rw [run_cons] at hmem
      refine ih (step s a) ?_ k sess hmem
      intro k' sess' hmem'
      rcases step_registry_mem s a k' sess' hmem' with h1 | h2
      · exact h k' sess' h1
      · exact h2

/-- Outbound frames are `mkFrame` images in every state reachable from a
state whose outbound frames are. -/
theorem run_outbound_mkFrame (acts : List Act) : ∀ s : CoordState,
    (∀ f ∈ s.outbound, ∃ t, f = mkFrame t) →
    ∀ f ∈ (run s acts).outbound, ∃ t, f = mkFrame t := by
  induction acts with
  | nil => exact fun s h => h
  | cons a acts ih =>
      intro s h f hf
      rw [run_cons] at hf
      refine ih (step s a) ?_ f hf
      intro f' hf'
      rcases step_outbound_mem s a f' hf' with h1 | h2
      · exact h f' h1
      · exact h2

/-- Inside `asyncio.run` with the peer still connected, the handler sends
one frame per pending token, in order, and returns to `ws.receive()`. -/
theorem run_generating (pending : List String) : ∀ s : CoordState,
    s.mode = .generating pending → s.peerClosed = false →
    run s (List.replicate (pending.length + 1) .tick) =
    { s with mode := .reading, outbound := s.outbound ++ pending.map mkFrame,
             clock := s.clock + pending.length + 1 } := by
  induction pending with
  | nil =>
      intro s hm hp
      obtain ⟨reg, outb, buf, pc, mode, orc, clk, gs⟩ := s
      simp only at hm hp
      subst hm hp
      simp [run, List.replicate, step, media_stream_step]
  | cons t ts ih =>
      intro s hm hp
      obtain ⟨reg, outb, buf, pc, mode, orc, clk, gs⟩ := s
      simp only at hm hp
      subst hm hp
      simp only [List.length_cons]
      rw [List.replicate_succ, run_cons]
      have hstep : step ⟨reg, outb, buf, false, .generating (t :: ts), orc, clk, gs⟩ .tick
          = ⟨reg, outb ++ [mkFrame t], buf, false, .generating ts, orc, clk + 1, gs⟩ := rfl
      rw [hstep, ih ⟨reg, outb ++ [mkFrame t], buf, false, .generating ts, orc, clk + 1, gs⟩ rfl rfl]
      simp [List.append_assoc]
      omega

/-- No mode carries two generations. -/
theorem inFlight_le_one (m : Mode) : inFlightGenerations m ≤ 1 := by
  cases m <;> simp [inFlightGenerations]

/-! ## The claims -/

/-- C1 (amended): nothing of this is exhibited by the shipped program — the
module fails to compile, so no media event is ever processed and no
generation is ever in flight (first conjunct).  In the handler's code as
written (layer 2): at most one generation per session is in flight at any
time, and a media frame arriving while one is in flight cannot start a
second concurrent generation and leaves the in-flight generation untouched
— it is queued on the channel, not dropped. -/
theorem c1_at_most_one_generation_in_flight :
    phonegeniusModuleLoads = false ∧
    (∀ (oracle : List GenOutcome) (acts : List Act),
      inFlightGenerations ((run (initState oracle) acts).mode) ≤ 1) ∧
    (∀ (s : CoordState) (pending : List String) (d : Option J),
      s.mode = .generating pending →
      (step s (Act.arrive d)).mode = s.mode ∧
      (step s (Act.arrive d)).gensStarted = s.gensStarted ∧
      (step s Act.tick).gensStarted = s.gensStarted) := by
  refine ⟨rfl, ?_, ?_⟩
  · intro oracle acts
    exact inFlight_le_one _
  · intro s pending d hm
    refine ⟨?_, ?_, ?_⟩
    · simp only [step]
      split <;> rfl
    · simp only [step]
      split <;> rfl
    · obtain ⟨reg, outb, buf, pc, mode, orc, clk, gs⟩ := s
      simp only at hm
      subst hm
      cases pending with
      | nil => rfl
      | cons t ts => cases pc <;> rfl

/-- C1 counterexample to the claim as stated.  In the shipped program the
claimed drop never occurs because nothing runs (first conjunct).  And in
the handler's code as written the event is not dropped either: a media
frame that arrives while a generation is in flight (second conjunct:
in-flight count is 1 at arrival) later starts a second, non-concurrent
generation whose frames are sent (third and fourth conjuncts:
`gensStarted = 2` and both generations' frames in the outbound stream). -/
theorem c1_media_during_generation_not_dropped :
    phonegeniusModuleLoads = false ∧
    inFlightGenerations ((run (initState [.ok ["A"], .ok ["B"]])
      [.arrive (some (startFrame "CA123")), .tick,
       .arrive (some (mediaFrame "")), .tick,
       .arrive (some (mediaFrame ""))]).mode) = 1 ∧
    (run (initState [.ok ["A"], .ok ["B"]])
      [.arrive (some (startFrame "CA123")), .tick,
       .arrive (some (mediaFrame "")), .tick,
       .arrive (some (mediaFrame "")),
       .tick, .tick, .tick, .tick]).gensStarted = 2 ∧
    (run (initState [.ok ["A"], .ok ["B"]])
      [.arrive (some (startFrame "CA123")), .tick,
       .arrive (some (mediaFrame "")), .tick,
       .arrive (some (mediaFrame "")),
       .tick, .tick, .tick, .tick]).outbound
      = [mkFrame OPENING, mkFrame "A", mkFrame "B"] :=
  ⟨rfl, rfl, rfl, rfl⟩

/-- C1 witness: the amended theorem applied on a state whose session has a
generation in flight. -/
theorem c1_at_most_one_generation_witness :
    phonegeniusModuleLoads = false ∧
    inFlightGenerations ((run (initState []) []).mode) ≤ 1 ∧
    (step (run (initState [.ok ["A"]])
        [.arrive (some (startFrame "CA123")), .tick, .arrive (some (mediaFrame "")), .tick])
      (Act.arrive (some (mediaFrame "")))).gensStarted
      = (run (initState [.ok ["A"]])
        [.arrive (some (startFrame "CA123")), .tick, .arrive (some (mediaFrame "")), .tick]).gensStarted :=
  ⟨c1_at_most_one_generation_in_flight.1,
   c1_at_most_one_generation_in_flight.2.1 [] [],
   (c1_at_most_one_generation_in_flight.2.2 _ ["A"] (some (mediaFrame "")) rfl).2.1⟩

/-- C2 counterexample to the claim as stated.  In the shipped program no
session is ever created, let alone removed, because the module never loads
(first conjunct).  And in the handler's code as written the claimed removal
does not exist either: after the peer closes the channel the handler ends,
yet the session is still in `ACTIVE_CALLS`. -/
theorem c2_session_survives_close :
    phonegeniusModuleLoads = false ∧
    (run (initState []) [.arrive (some (startFrame "CA123")), .tick, .close, .tick]).ACTIVE_CALLS
      = [(.pystr "CA123", { started := 0, transcript := [] })] ∧
    (run (initState []) [.arrive (some (startFrame "CA123")), .tick, .close, .tick]).mode
      = .closed :=
  ⟨rfl, rfl, rfl⟩

/-- C2 (amended): the shipped program never serves a channel (the module
fails to compile), so no session is ever created or removed.  In the
handler's code as written: once the peer has closed the channel, no further
outbound frame is ever written for that call (every send attempt raises
before appending, so an in-flight generation's remaining tokens are
discarded), but the session is not removed from the registry — no code
deletes `ACTIVE_CALLS` entries. -/
theorem c2_no_outbound_after_close :
    phonegeniusModuleLoads = false ∧
    ∀ (acts : List Act) (s : CoordState), s.peerClosed = true →
      (run s acts).outbound = s.outbound ∧ (run s acts).peerClosed = true :=
  ⟨rfl, fun acts s h => run_after_close acts s h⟩

/-- C2 witness: the amended theorem applied after a concrete close. -/
theorem c2_no_outbound_after_close_witness :
    phonegeniusModuleLoads = false ∧
    ((run (run (initState []) [.arrive (some (startFrame "CA123")), .tick, .close])
        [.tick, .tick]).outbound
      = (run (initState []) [.arrive (some (startFrame "CA123")), .tick, .close]).outbound ∧
    (run (run (initState []) [.arrive (some (startFrame "CA123")), .tick, .close])
        [.tick, .tick]).peerClosed = true) :=
  ⟨c2_no_outbound_after_close.1,
   c2_no_outbound_after_close.2 [.tick, .tick]
    (run (initState []) [.arrive (some (startFrame "CA123")), .tick, .close]) rfl⟩

/-- C3 (amended): the shipped program never processes a frame (the module
fails to compile, first conjunct).  In the handler's code as written, the
legs of the claim that hold are: a frame whose text fails to parse as JSON
is discarded — the handler consumes it and nothing else changes, no session
state mutated, no outbound frame, channel open (second conjunct); and a
parsed object whose `event` is absent (third conjunct) or an unrecognized
string such as `stop` (fourth conjunct) is skipped just as harmlessly.
The claim fails only for frames that select the `start`/`media` branch and
then lack the structure those branches index into — see the
counterexample. -/
theorem c3_unparseable_frame_discarded :
    phonegeniusModuleLoads = false ∧
    (∀ (s : CoordState) (rest : List (Option J)),
      s.mode = .reading → s.buffer = none :: rest →
      step s .tick = { s with buffer := rest, clock := s.clock + 1 }) ∧
    (∀ (s : CoordState) (fields : List (String × J)) (rest : List (Option J)),
      s.mode = .reading → s.buffer = some (.jobj fields) :: rest →
      jGet fields "event" = none →
      step s .tick = { s with buffer := rest, clock := s.clock + 1 }) ∧
    (∀ (s : CoordState) (fields : List (String × J)) (e : String) (rest : List (Option J)),
      s.mode = .reading → s.buffer = some (.jobj fields) :: rest →
      jGet fields "event" = some (.jstr e) → e ≠ "start" → e ≠ "media" →
      step s .tick = { s with buffer := rest, clock := s.clock + 1 }) := by
  refine ⟨rfl, ?_, ?_, ?_⟩
  · intro s rest hm hb
    rw [media_stream_step_reading s none rest hm hb]
    rfl
  · intro s fields rest hm hb hev
    rw [media_stream_step_reading s (some (.jobj fields)) rest hm hb]
    show (match jGet fields "event" with
          | some (J.jstr e) =>
              if e = "start" then handleStart s fields rest
              else if e = "media" then handleMedia s fields rest
              else { s with buffer := rest, clock := s.clock + 1 }
          | _ => { s with buffer := rest, clock := s.clock + 1 })
        = { s with buffer := rest, clock := s.clock + 1 }
    rw [hev]
  · intro s fields e rest hm hb hev h1 h2
    rw [media_stream_step_reading s (some (.jobj fields)) rest hm hb]
    show (match jGet fields "event" with
          | some (J.jstr e) =>
              if e = "start" then handleStart s fields rest
              else if e = "media" then handleMedia s fields rest
              else { s with buffer := rest, clock := s.clock + 1 }
          | _ => { s with buffer := rest, clock := s.clock + 1 })
        = { s with buffer := rest, clock := s.clock + 1 }
    rw [hev]
    show (if e = "start" then handleStart s fields rest
          else if e = "media" then handleMedia s fields rest
          else { s with buffer := rest, clock := s.clock + 1 })
        = { s with buffer := rest, clock := s.clock + 1 }
    rw [if_neg h1, if_neg h2]

/-- C3 counterexample to the claim as stated.  In the shipped program no
frame is ever decoded at all — the module never loads (first conjunct).
And in the handler's code as written the claim's continue-processing
guarantee is false: a frame that IS valid JSON but lacks the expected
structure (a media event without a `media` payload) raises `KeyError`,
which the loop's `except json.JSONDecodeError` does not catch — the
handler dies, the channel closes, and a well-formed frame queued behind it
is never processed. -/
theorem c3_bad_media_frame_kills_channel :
    phonegeniusModuleLoads = false ∧
    (run (initState [.ok ["Hi"]])
      [.arrive (some (.jobj [("event", .jstr "media")])), .tick,
       .arrive (some (mediaFrame "")), .tick, .tick, .tick]).mode = .closed ∧
    (run (initState [.ok ["Hi"]])
      [.arrive (some (.jobj [("event", .jstr "media")])), .tick,
       .arrive (some (mediaFrame "")), .tick, .tick, .tick]).outbound = [] ∧
    (run (initState [.ok ["Hi"]])
      [.arrive (some (.jobj [("event", .jstr "media")])), .tick,
       .arrive (some (mediaFrame "")), .tick, .tick, .tick]).gensStarted = 0 :=
  ⟨rfl, rfl, rfl, rfl⟩

/-- C3 witness: the amended theorem applied to a concrete unparseable frame
and to a concrete unrecognized-event frame. -/
theorem c3_unparseable_frame_discarded_witness :
    phonegeniusModuleLoads = false ∧
    step (run (initState []) [Act.arrive none]) Act.tick
      = ⟨[], [], [], false, Mode.reading, [], 1, 0⟩ ∧
    step (run (initState []) [Act.arrive (some (.jobj [("event", .jstr "stop")]))]) Act.tick
      = ⟨[], [], [], false, Mode.reading, [], 1, 0⟩ :=
  ⟨c3_unparseable_frame_discarded.1,
   (c3_unparseable_frame_discarded.2.1 (run (initState []) [Act.arrive none]) [] rfl rfl).trans rfl,
   (c3_unparseable_frame_discarded.2.2.2
     (run (initState []) [Act.arrive (some (.jobj [("event", .jstr "stop")]))])
     [("event", .jstr "stop")] "stop" [] rfl rfl rfl (by decide) (by decide)).trans rfl⟩

/-- C4 counterexample to the claim as stated.  In the shipped program no
channel setup ever happens (module never loads, first conjunct).  And in
the handler's code as written, a first `start` event with no call
identifier does not fail setup — a session keyed by the null identifier is
registered, the opening is sent, and the channel stays open. -/
theorem c4_start_without_callsid_registers_null_session :
    phonegeniusModuleLoads = false ∧
    (run (initState []) [.arrive (some (.jobj [("event", .jstr "start"), ("start", .jobj [])])),
        .tick]).ACTIVE_CALLS
      = [(.pynull, { started := 0, transcript := [] })] ∧
    (run (initState []) [.arrive (some (.jobj [("event", .jstr "start"), ("start", .jobj [])])),
        .tick]).mode = .reading ∧
    (run (initState []) [.arrive (some (.jobj [("event", .jstr "start"), ("start", .jobj [])])),
        .tick]).outbound = [mkFrame OPENING] :=
  ⟨rfl, rfl, rfl, rfl⟩

/-- C4 (amended): in the shipped program channel setup never happens at all
(module never loads, first conjunct).  In the handler's code as written,
setup is not rejected in the claimed cases: a first frame that does not
parse as JSON is skipped — no session, channel open (conjuncts 2–3); a
first `start` event without a call identifier registers a session under
the null identifier and leaves the channel open (conjuncts 4–5).  The
handler does die with the channel closed and no session registered — but
only in other corner cases: a `start` whose `start` value is not an object
(its `.get` raises `AttributeError`, conjuncts 6–7) or a `callSid` that is
an unhashable list or dict (the registry subscript raises `TypeError`,
conjuncts 8–9). -/
theorem c4_setup_outcomes :
    phonegeniusModuleLoads = false ∧
    (run (initState []) [.arrive none, .tick]).ACTIVE_CALLS = [] ∧
    (run (initState []) [.arrive none, .tick]).mode = .reading ∧
    (run (initState []) [.arrive (some (.jobj [("event", .jstr "start"), ("start", .jobj [])])),
        .tick]).ACTIVE_CALLS = [(.pynull, { started := 0, transcript := [] })] ∧
    (run (initState []) [.arrive (some (.jobj [("event", .jstr "start"), ("start", .jobj [])])),
        .tick]).mode = .reading ∧
    (run (initState []) [.arrive (some (.jobj [("event", .jstr "start"), ("start", .jstr "x")])),
        .tick]).ACTIVE_CALLS = [] ∧
    (run (initState []) [.arrive (some (.jobj [("event", .jstr "start"), ("start", .jstr "x")])),
        .tick]).mode = .closed ∧
    (run (initState []) [.arrive (some (.jobj [("event", .jstr "start"),
        ("start", .jobj [("callSid", .jarr [])])])), .tick]).ACTIVE_CALLS = [] ∧
    (run (initState []) [.arrive (some (.jobj [("event", .jstr "start"),
        ("start", .jobj [("callSid", .jarr [])])])), .tick]).mode = .closed :=
  ⟨rfl, rfl, rfl, rfl, rfl, rfl, rfl, rfl, rfl⟩

/-- C5 (code_bug): the claim describes exactly what the handler's code as
written does, but the code cannot do it — the module dies at compile time
in `stream_gemini_response` itself, so no generation ever runs (first
conjunct, the defect).  Second conjunct, the claim's content on the
handler text: a generation that completes normally sends exactly one
outbound frame per (non-empty-text) token, in the order produced, with no
gaps and no reordering, and the handler returns to reading. -/
theorem c5_tokens_forwarded_in_order :
    phonegeniusModuleLoads = false ∧
    ∀ (s : CoordState) (p : String) (cs : List String)
      (orest : List GenOutcome) (rest : List (Option J)),
      s.mode = .reading → s.buffer = some (mediaFrame p) :: rest →
      pyB64Valid p = true → s.oracle = .ok cs :: orest →
      s.peerClosed = false → (∀ t ∈ cs, t ≠ "") →
      (run s (List.replicate (cs.length + 2) Act.tick)).outbound
        = s.outbound ++ cs.map mkFrame ∧
      (run s (List.replicate (cs.length + 2) Act.tick)).mode = .reading := by
  refine ⟨rfl, ?_⟩
  intro s p cs orest rest hm hb hp ho hpc hne
  have hstream : stream_gemini_response ((GenOutcome.ok cs :: orest).headD (.ok [])) = cs := by
    show cs.filter (fun c => c ≠ "") = cs
    rw [List.filter_eq_self]
    intro a ha
    simpa using hne a ha
  have h1 : step s .tick =
      { s with mode := Mode.generating cs, oracle := orest,
               gensStarted := s.gensStarted + 1, buffer := rest, clock := s.clock + 1 } := by
    rw [media_stream_step_reading s (some (mediaFrame p)) rest hm hb,
        processFrame_mediaFrame s p rest hp, ho, hstream]
    rfl
  have h2 := run_generating cs
    { s with mode := Mode.generating cs, oracle := orest,
             gensStarted := s.gensStarted + 1, buffer := rest, clock := s.clock + 1 } rfl hpc
  rw [List.replicate_succ, run_cons, h1, h2]
  exact ⟨rfl, rfl⟩

/-- C5 witness: the tokens `Hi`, ` there`, `!` yield exactly those three
frames, in order. -/
theorem c5_tokens_forwarded_in_order_witness :
    phonegeniusModuleLoads = false ∧
    ((run (run (initState [.ok ["Hi", " there", "!"]]) [.arrive (some (mediaFrame ""))])
        (List.replicate (["Hi", " there", "!"].length + 2) Act.tick)).outbound
      = (run (initState [.ok ["Hi", " there", "!"]]) [.arrive (some (mediaFrame ""))]).outbound
        ++ ["Hi", " there", "!"].map mkFrame ∧
    (run (run (initState [.ok ["Hi", " there", "!"]]) [.arrive (some (mediaFrame ""))])
        (List.replicate (["Hi", " there", "!"].length + 2) Act.tick)).mode = .reading) :=
  ⟨c5_tokens_forwarded_in_order.1,
   c5_tokens_forwarded_in_order.2
    (run (initState [.ok ["Hi", " there", "!"]]) [.arrive (some (mediaFrame ""))])
    "" ["Hi", " there", "!"] [] [] rfl rfl rfl rfl rfl (by decide)⟩

/-- C6 (code_bug): the fallback behaviour the claim describes is exactly
what `stream_gemini_response`'s `except` branch, as written, provides —
and that very function is the compile-time defect, so the module never
loads and no token-source failure can ever be answered (first conjunct).
Second conjunct, the claim's content on the handler text: when the token
source fails, exactly one fallback frame is sent after the tokens produced
before the failure, the in-flight generation ends, the channel stays open,
and the next eligible media event starts a new generation. -/
theorem c6_fallback_on_generation_error :
    phonegeniusModuleLoads = false ∧
    ∀ (s : CoordState) (p : String) (cs : List String) (orest : List GenOutcome),
      s.mode = .reading → s.buffer = [some (mediaFrame p)] →
      pyB64Valid p = true → s.oracle = .err cs :: orest →
      s.peerClosed = false → FALLBACK ∉ cs →
      (run s (List.replicate ((cs.filter (fun c => c ≠ "")).length + 3) Act.tick)).outbound
        = s.outbound ++ (cs.filter (fun c => c ≠ "") ++ [FALLBACK]).map mkFrame ∧
      (cs.filter (fun c => c ≠ "") ++ [FALLBACK]).count FALLBACK = 1 ∧
      (run s (List.replicate ((cs.filter (fun c => c ≠ "")).length + 3) Act.tick)).mode
        = .reading ∧
      (run s (List.replicate ((cs.filter (fun c => c ≠ "")).length + 3) Act.tick)).peerClosed
        = false ∧
      (run (run s (List.replicate ((cs.filter (fun c => c ≠ "")).length + 3) Act.tick))
          [.arrive (some (mediaFrame "")), .tick]).gensStarted = s.gensStarted + 2 := by
  refine ⟨rfl, ?_⟩
  intro s p cs orest hm hb hp ho hpc hfb
  have hstream : stream_gemini_response ((GenOutcome.err cs :: orest).headD (.ok []))
      = cs.filter (fun c => c ≠ "") ++ [FALLBACK] := rfl
  have h1 : step s .tick =
      { s with mode := Mode.generating (cs.filter (fun c => c ≠ "") ++ [FALLBACK]),
               oracle := orest, gensStarted := s.gensStarted + 1, buffer := [],
               clock := s.clock + 1 } := by
    rw [media_stream_step_reading s (some (mediaFrame p)) [] hm hb,
        processFrame_mediaFrame s p [] hp, ho, hstream]
    rfl
  have h2 := run_generating (cs.filter (fun c => c ≠ "") ++ [FALLBACK])
    { s with mode := Mode.generating (cs.filter (fun c => c ≠ "") ++ [FALLBACK]),
             oracle := orest, gensStarted := s.gensStarted + 1, buffer := [],
             clock := s.clock + 1 } rfl hpc
  have hlen : (cs.filter (fun c => c ≠ "")).length + 3
      = ((cs.filter (fun c => c ≠ "") ++ [FALLBACK]).length + 1) + 1 := by
    simp
  have hcount : (cs.filter (fun c => c ≠ "") ++ [FALLBACK]).count FALLBACK = 1 := by
    have h0 : (cs.filter (fun c => c ≠ "")).count FALLBACK = 0 := by
      rw [List.count_eq_zero]
      intro hmem
      exact hfb (List.mem_filter.mp hmem).1
    rw [List.count_append, h0]
    simp
  rw [hlen, List.replicate_succ, run_cons, h1, h2]
  refine ⟨rfl, hcount, rfl, hpc, ?_⟩
  have ha1 : run
      { { s with mode := Mode.generating (cs.filter (fun c => c ≠ "") ++ [FALLBACK]),
                 oracle := orest, gensStarted := s.gensStarted + 1, buffer := [],
                 clock := s.clock + 1 } with
        mode := Mode.reading,
        outbound := s.outbound ++ (cs.filter (fun c => c ≠ "") ++ [FALLBACK]).map mkFrame,
        clock := s.clock + 1 + (cs.filter (fun c => c ≠ "") ++ [FALLBACK]).length + 1 }
      [Act.arrive (some (mediaFrame "")), Act.tick]
      = run
      { s with mode := Mode.reading,
               outbound := s.outbound ++ (cs.filter (fun c => c ≠ "") ++ [FALLBACK]).map mkFrame,
               oracle := orest, gensStarted := s.gensStarted + 1,
               buffer := [some (mediaFrame "")],
               clock := s.clock + 1 + (cs.filter (fun c => c ≠ "") ++ [FALLBACK]).length + 1 }
      [Act.tick] := by
    rw [run_cons]
    congr 1
    simp only [step]
    rw [if_neg (by rw [hpc]; exact Bool.false_ne_true)]
    rfl
  rw [ha1, run_cons,
      media_stream_step_reading _ (some (mediaFrame "")) [] rfl rfl,
      processFrame_mediaFrame _ "" [] rfl]
  rfl

/-- C6 witness: one token then a source failure yields the token frame and
one fallback frame, and the next media event starts a fresh generation. -/
theorem c6_fallback_on_generation_error_witness :
    phonegeniusModuleLoads = false ∧
    ((run (run (initState [.err ["Hi"], .ok []]) [.arrive (some (mediaFrame ""))])
        (List.replicate ((["Hi"].filter (fun c => c ≠ "")).length + 3) Act.tick)).outbound
      = (run (initState [.err ["Hi"], .ok []]) [.arrive (some (mediaFrame ""))]).outbound
        ++ (["Hi"].filter (fun c => c ≠ "") ++ [FALLBACK]).map mkFrame ∧
    (["Hi"].filter (fun c => c ≠ "") ++ [FALLBACK]).count FALLBACK = 1 ∧
    (run (run (initState [.err ["Hi"], .ok []]) [.arrive (some (mediaFrame ""))])
        (List.replicate ((["Hi"].filter (fun c => c ≠ "")).length + 3) Act.tick)).mode
      = .reading ∧
    (run (run (initState [.err ["Hi"], .ok []]) [.arrive (some (mediaFrame ""))])
        (List.replicate ((["Hi"].filter (fun c => c ≠ "")).length + 3) Act.tick)).peerClosed
      = false ∧
    (run (run (run (initState [.err ["Hi"], .ok []]) [.arrive (some (mediaFrame ""))])
        (List.replicate ((["Hi"].filter (fun c => c ≠ "")).length + 3) Act.tick))
        [.arrive (some (mediaFrame "")), .tick]).gensStarted
      = (run (initState [.err ["Hi"], .ok []]) [.arrive (some (mediaFrame ""))]).gensStarted + 2) :=
  ⟨c6_fallback_on_generation_error.1,
   c6_fallback_on_generation_error.2
    (run (initState [.err ["Hi"], .ok []]) [.arrive (some (mediaFrame ""))])
    "" ["Hi"] [.ok []] rfl rfl rfl rfl rfl (by decide)⟩

/-- C7 (code_bug): the scenario can never happen in the shipped program —
the module fails to compile, so no server starts, the start event is never
received, no opening frame is sent and no session `CA123` ever exists
(first conjunct, the defect).  The remaining conjuncts prove the claim's
content on the handler's code as written:
`{"event":"start","start":{"callSid":"CA123"}}` on a fresh channel
produces exactly one outbound frame, its payload is the base64 of the
opening line's UTF-8 bytes (decoding recovers them exactly), and the
session `CA123` is in the registry afterwards. -/
theorem c7_start_scenario :
    phonegeniusModuleLoads = false ∧
    (run (initState []) [.arrive (some (startFrame "CA123")), .tick]).outbound
      = [mkFrame OPENING] ∧
    (run (initState []) [.arrive (some (startFrame "CA123")), .tick]).ACTIVE_CALLS
      = [(.pystr "CA123", { started := 0, transcript := [] })] ∧
    b64decode (b64encode (utf8Bytes OPENING)) = some (utf8Bytes OPENING) :=
  ⟨rfl, rfl, rfl, b64_roundtrip _ (utf8Bytes_lt OPENING)⟩

/-- C8 counterexample to the claim as stated.  In the shipped program no
event is ever handled and no transcript ever exists — the module never
loads (first conjunct).  And in the handler's code as written the claimed
appends do not exist either: a session's transcript stays empty although
inbound events were handled and outbound frames were sent. -/
theorem c8_transcript_ignores_traffic :
    phonegeniusModuleLoads = false ∧
    (run (initState [.ok ["Hi"]])
      [.arrive (some (startFrame "CA123")), .tick,
       .arrive (some (mediaFrame "")), .tick, .tick, .tick]).ACTIVE_CALLS
      = [(.pystr "CA123", { started := 0, transcript := [] })] ∧
    (run (initState [.ok ["Hi"]])
      [.arrive (some (startFrame "CA123")), .tick,
       .arrive (some (mediaFrame "")), .tick, .tick, .tick]).outbound
      = [mkFrame OPENING, mkFrame "Hi"] :=
  ⟨rfl, rfl, rfl⟩

/-- C8 (amended): the shipped program handles no events (module never
loads, first conjunct), so no transcript exists at runtime.  In the
handler's code as written the transcript is created empty and is never
appended to, rewritten or truncated — in every reachable state every
registered session's transcript is `[]`. -/
theorem c8_transcript_never_written :
    phonegeniusModuleLoads = false ∧
    ∀ (oracle : List GenOutcome) (acts : List Act) (k : PyKey) (sess : Session),
      (k, sess) ∈ (run (initState oracle) acts).ACTIVE_CALLS →
      sess.transcript = [] := by
  refine ⟨rfl, ?_⟩
  intro oracle acts k sess hmem
  refine run_registry_transcript acts (initState oracle) ?_ k sess hmem
  intro k' sess' h
  simp [initState] at h

/-- C8 witness: the amended theorem applied to the session registered by a
concrete start event. -/
theorem c8_transcript_never_written_witness :
    phonegeniusModuleLoads = false ∧
    (Session.transcript { started := 0, transcript := [] }) = [] :=
  ⟨c8_transcript_never_written.1,
   c8_transcript_never_written.2 [] [.arrive (some (startFrame "CA123")), .tick]
    (.pystr "CA123") { started := 0, transcript := [] } (by decide)⟩

/-- C9 (code_bug): the shipped program can emit no outbound frame at all —
the module fails to compile (first conjunct, the defect).  Second
conjunct, the claim's content on the handler's code as written: every
outbound frame carries as payload exactly the base64 encoding of the
UTF-8 bytes of its text, and decoding the payload recovers those bytes. -/
theorem c9_outbound_payload_roundtrip :
    phonegeniusModuleLoads = false ∧
    ∀ (oracle : List GenOutcome) (acts : List Act) (f : J),
      f ∈ (run (initState oracle) acts).outbound →
      ∃ t : String, f = mkFrame t ∧
        b64decode (b64encode (utf8Bytes t)) = some (utf8Bytes t) := by
  refine ⟨rfl, ?_⟩
  intro oracle acts f hf
  obtain ⟨t, rfl⟩ := run_outbound_mkFrame acts (initState oracle)
    (by intro f h; simp [initState] at h) f hf
  exact ⟨t, rfl, b64_roundtrip _ (utf8Bytes_lt t)⟩

/-- C9 witness: applied to the opening frame of a concrete run. -/
theorem c9_outbound_payload_roundtrip_witness :
    phonegeniusModuleLoads = false ∧
    ∃ t : String, mkFrame OPENING = mkFrame t ∧
      b64decode (b64encode (utf8Bytes t)) = some (utf8Bytes t) :=
  ⟨c9_outbound_payload_roundtrip.1,
   c9_outbound_payload_roundtrip.2 [] [.arrive (some (startFrame "CA123")), .tick]
    (mkFrame OPENING) (by exact List.mem_singleton.mpr rfl)⟩

/-- C10 counterexample to the claim as stated.  In the shipped program
`started_at` is never set even once — the module never loads (first
conjunct).  And in the handler's code as written it is not set exactly
once either: a second `start` event with the same call identifier replaces
the session, resetting `started` from its creation time 0 to the later
time 1. -/
theorem c10_second_start_resets_started_at :
    phonegeniusModuleLoads = false ∧
    (run (initState []) [.arrive (some (startFrame "CA123")), .tick]).ACTIVE_CALLS
      = [(.pystr "CA123", { started := 0, transcript := [] })] ∧
    (run (initState [])
      [.arrive (some (startFrame "CA123")), .tick,
       .arrive (some (startFrame "CA123")), .tick]).ACTIVE_CALLS
      = [(.pystr "CA123", { started := 1, transcript := [] })] :=
  ⟨rfl, rfl, rfl⟩

/-- C10 (amended): in the shipped program `started_at` is never assigned at
all (module never loads, first conjunct).  In the handler's code as
written, every processed `start` event unconditionally rewrites the session
under its key with a fresh `started` timestamp and an empty transcript,
whether or not a session with that key already exists. -/
theorem c10_every_start_rewrites_session :
    phonegeniusModuleLoads = false ∧
    ∀ (s : CoordState) (sid : String) (rest : List (Option J)),
      s.mode = .reading → s.buffer = some (startFrame sid) :: rest →
      s.peerClosed = false →
      (step s .tick).ACTIVE_CALLS
        = insertReplace (.pystr sid) { started := s.clock, transcript := [] }
            s.ACTIVE_CALLS := by
  refine ⟨rfl, ?_⟩
  intro s sid rest hm hb hpc
  rw [media_stream_step_reading s (some (startFrame sid)) rest hm hb,
      processFrame_startFrame s sid rest hpc]

/-- C10 witness: the amended theorem applied to a concrete start event. -/
theorem c10_every_start_rewrites_session_witness :
    phonegeniusModuleLoads = false ∧
    (step (run (initState []) [.arrive (some (startFrame "CA123"))]) .tick).ACTIVE_CALLS
      = insertReplace (.pystr "CA123")
          { started := (run (initState []) [.arrive (some (startFrame "CA123"))]).clock,
            transcript := [] }
          (run (initState []) [.arrive (some (startFrame "CA123"))]).ACTIVE_CALLS :=
  ⟨c10_every_start_rewrites_session.1,
   c10_every_start_rewrites_session.2 (run (initState []) [.arrive (some (startFrame "CA123"))])
    "CA123" [] rfl rfl rfl⟩

end PGU
